import Mathlib

/-!
# The Prisma quickstart script (`src/index.js`)

A shallow embedding of the demo script: `main`, the success handler passed to
`.then`, the failure handler passed to `.catch`, and the promise chain
`main().then(...).catch(...)` that ties them together.

The database client and the console are outside the script. They are a parameter
(`Env`): every call of the script is answered by the environment, which may
fulfil or reject it, and every call is recorded in a trace of effects.
A run starts once `new PrismaClient()` has returned the client handle.
-/

namespace PrismaQuickstart

/-! ## Arguments of the client calls -/

/-- Data object of a nested `posts: { create: ... }`. An absent `published`
key is `none`. -/
structure PostCreateInput where
  title : String
  published : Option Bool
  deriving DecidableEq, Repr

/-- Data object of a nested `profile: { create: ... }`. -/
structure ProfileCreateInput where
  bio : String
  deriving DecidableEq, Repr

/-- The `data` object of `prisma.user.create`: the scalar fields and the nested
creates of the two relations. -/
structure UserCreateInput where
  name : String
  email : String
  posts : List PostCreateInput
  profile : Option ProfileCreateInput
  deriving DecidableEq, Repr

/-- Argument of `prisma.user.create`. -/
structure UserCreateArgs where
  data : UserCreateInput
  deriving DecidableEq, Repr

/-- A `where` filter of `prisma.user.findMany`: equality on the scalar fields
that are given. -/
structure UserWhereInput where
  name : Option String
  email : Option String
  deriving DecidableEq, Repr

/-- The `include` object of `prisma.user.findMany`; an absent key is `false`. -/
structure UserInclude where
  posts : Bool
  profile : Bool
  deriving DecidableEq, Repr

/-- Argument of `prisma.user.findMany`; `filter` is the `where` key, `none`
when the key is absent. -/
structure UserFindManyArgs where
  filter : Option UserWhereInput
  include_ : UserInclude
  deriving DecidableEq, Repr

/-- A limit in the options of the inspector: a number, or `null` for no
limit. -/
inductive Limit where
  | upTo (n : Nat)
  | unlimited
  deriving DecidableEq, Repr

/-- Options object of `console.dir`, which hands it on to the inspector. A key
that the object does not have is `none`. -/
structure DirOptions where
  depth : Option Limit
  maxArrayLength : Option Limit
  maxStringLength : Option Limit
  deriving DecidableEq, Repr

/-! ## Effects -/

/-- The three models of the schema. -/
inductive Model where
  | user
  | post
  | profile
  deriving DecidableEq, Repr

/-- Calls on the client handle that a trace can record. `update` and `delete`
are the client's calls that change or remove rows of a model. -/
inductive Request where
  | userCreate (args : UserCreateArgs)
  | userFindMany (args : UserFindManyArgs)
  | update (m : Model)
  | delete (m : Model)
  | disconnect
  deriving DecidableEq, Repr

/-- Observable effects of a run, in the order they happen. `α` is the type of
the value `findMany` resolves to, `ε` the type of thrown values. -/
inductive Effect (α ε : Type) where
  /-- a request is issued on the client handle -/
  | call (r : Request)
  /-- the awaited request has settled; `ok` is `false` when it rejected -/
  | settled (r : Request) (ok : Bool)
  /-- `console.dir v opts`: standard output -/
  | consoleDir (v : α) (opts : DirOptions)
  /-- `console.error e`: standard error -/
  | consoleError (e : ε)
  /-- `process.exit code` -/
  | processExit (code : Nat)

/-- The environment of the script: the client handle and `console.dir`, as
transitions on the state `σ` of the outside world. The value `user.create`
resolves to is discarded by the script and not represented. `console.error`
only writes and has no outcome of its own. -/
structure Env (σ α ε : Type) where
  userCreate : UserCreateArgs → σ → Except ε Unit × σ
  userFindMany : UserFindManyArgs → σ → Except ε α × σ
  disconnect : σ → Except ε Unit × σ
  consoleDir : α → DirOptions → σ → Except ε Unit × σ

/-- State of a run: the outside world and the effects so far. -/
structure World (σ α ε : Type) where
  state : σ
  trace : List (Effect α ε)

/-- How an asynchronous computation ends: its promise is fulfilled, it is
rejected, or the process was ended by `process.exit`. -/
inductive Completion (ε τ : Type) where
  | fulfilled (v : τ)
  | rejected (e : ε)
  | exited (code : Nat)
  deriving DecidableEq, Repr

/-- An asynchronous computation over the world. -/
def Async (σ α ε τ : Type) : Type := World σ α ε → Completion ε τ × World σ α ε

namespace Async

variable {σ α ε τ υ : Type}

/-- A computation that is already fulfilled. -/
def pure (v : τ) : Async σ α ε τ := fun w => (.fulfilled v, w)

/-- Sequencing (`await x; f`): a rejection or an exit of `x` skips `f`. -/
def bind (x : Async σ α ε τ) (f : τ → Async σ α ε υ) : Async σ α ε υ := fun w =>
  match x w with
  | (.fulfilled v, w1) => f v w1
  | (.rejected e, w1) => (.rejected e, w1)
  | (.exited c, w1) => (.exited c, w1)

instance : Monad (Async σ α ε) where
  pure := Async.pure
  bind := Async.bind

/-- Append one effect to the trace. -/
def emit (ev : Effect α ε) : Async σ α ε Unit := fun w =>
  (.fulfilled (), { w with trace := w.trace ++ [ev] })

/-- Issue a request on the client handle and await it: the call is recorded,
the environment answers, the settlement is recorded. -/
def await (r : Request) (op : σ → Except ε τ × σ) : Async σ α ε τ := fun w =>
  match op w.state with
  | (.ok v, s) =>
    (.fulfilled v, { state := s, trace := w.trace ++ [.call r, .settled r true] })
  | (.error e, s) =>
    (.rejected e, { state := s, trace := w.trace ++ [.call r, .settled r false] })

/-- Promise `p.then(onFulfilled)`: the handler runs on the fulfilment value; a
rejection passes through. -/
def andThen (p : Async σ α ε τ) (onFulfilled : τ → Async σ α ε υ) : Async σ α ε υ :=
  Async.bind p onFulfilled

/-- Promise `p.catch(onRejected)`: the handler runs on the rejection value of
`p`, whichever step of `p` rejected; a fulfilment passes through. -/
def catchWith (p : Async σ α ε τ) (onRejected : ε → Async σ α ε τ) : Async σ α ε τ := fun w =>
  match p w with
  | (.fulfilled v, w1) => (.fulfilled v, w1)
  | (.rejected e, w1) => onRejected e w1
  | (.exited c, w1) => (.exited c, w1)

end Async

section Script

variable {σ α ε : Type}

/-- The expression `console.dir(v, opts)`: recorded, then it returns or throws as
the environment says. -/
def consoleDir (env : Env σ α ε) (v : α) (opts : DirOptions) : Async σ α ε Unit := fun w =>
  match env.consoleDir v opts w.state with
  | (.ok _, s) => (.fulfilled (), { state := s, trace := w.trace ++ [.consoleDir v opts] })
  | (.error e, s) => (.rejected e, { state := s, trace := w.trace ++ [.consoleDir v opts] })

/-- The expression `console.error(err)`. -/
def consoleError (err : ε) : Async σ α ε Unit := Async.emit (.consoleError err)

/-- The expression `process.exit(code)`: the process ends here. -/
def processExit (code : Nat) : Async σ α ε Unit := fun w =>
  (.exited code, { w with trace := w.trace ++ [.processExit code] })

/-- The argument of `prisma.user.create` in `main` (lines 14-25). -/
def createArgs : UserCreateArgs :=
  { data :=
      { name := "danishKodeMonkey"
        email := "danish@KodeMonkey.banana"
        posts := [{ title := "Hello world", published := none }]
        profile := some { bio := "I like bananas" } } }

/-- The argument of `prisma.user.findMany` in `main` (lines 28-30). -/
def findManyArgs : UserFindManyArgs :=
  { filter := none, include_ := { posts := true, profile := true } }

/-- The options of `console.dir` in `main` (line 32): `{ depth: null }`, no
other key. -/
def dirOptions : DirOptions :=
  { depth := some .unlimited, maxArrayLength := none, maxStringLength := none }

/-- The call `await prisma.user.create(args)`. -/
def prismaUserCreate (env : Env σ α ε) (args : UserCreateArgs) : Async σ α ε Unit :=
  Async.await (.userCreate args) (env.userCreate args)

/-- The call `await prisma.user.findMany(args)`. -/
def prismaUserFindMany (env : Env σ α ε) (args : UserFindManyArgs) : Async σ α ε α :=
  Async.await (.userFindMany args) (env.userFindMany args)

/-- The call `await prisma.$disconnect()`. -/
def prismaDisconnect (env : Env σ α ε) : Async σ α ε Unit :=
  Async.await .disconnect env.disconnect

/-- The function `main` (lines 11-52). -/
def main (env : Env σ α ε) : Async σ α ε Unit := do
  prismaUserCreate env createArgs
  let allUsers ← prismaUserFindMany env findManyArgs
  consoleDir env allUsers dirOptions

/-- The handler passed to `.then` (lines 56-59). -/
def onFulfilled (env : Env σ α ε) : Unit → Async σ α ε Unit := fun _ => do
  prismaDisconnect env

/-- The handler passed to `.catch` (lines 60-65). -/
def onRejected (env : Env σ α ε) : ε → Async σ α ε Unit := fun err => do
  consoleError err
  prismaDisconnect env
  processExit 1

/-- The top-level statement `main().then(...).catch(...)` (lines 55-65). -/
def script (env : Env σ α ε) : Async σ α ε Unit :=
  ((main env).andThen (onFulfilled env)).catchWith (onRejected env)

/-- One run of the script from the state `s` of the outside world. -/
def run (env : Env σ α ε) (s : σ) : Completion ε Unit × World σ α ε :=
  script env { state := s, trace := [] }

end Script

/-! ## The store

The schema and the client's behaviour on it are outside `src/index.js`; the
model below is the one the specification describes. -/

/-- Modelled from the spec: the `User` row of the schema (identity fields name
and email, email unique); the schema file is not part of the source. -/
structure User where
  id : Nat
  name : String
  email : String
  deriving DecidableEq, Repr

/-- Modelled from the spec: the `Post` row of the schema (a title, a published
flag, a back-reference to the owning user). -/
structure Post where
  id : Nat
  title : String
  published : Bool
  authorId : Nat
  deriving DecidableEq, Repr

/-- Modelled from the spec: the `Profile` row of the schema (a bio, a
back-reference to the owning user). -/
structure Profile where
  id : Nat
  bio : String
  userId : Nat
  deriving DecidableEq, Repr

/-- Modelled from the spec: the database, the rows of the three tables. -/
structure Db where
  users : List User
  posts : List Post
  profiles : List Profile
  deriving DecidableEq, Repr

/-- Modelled from the spec: a user as `findMany` returns it, with the related
posts and profile (empty and absent when the relation is not included). -/
structure UserWithRelations where
  id : Nat
  name : String
  email : String
  posts : List Post
  profile : Option Profile
  deriving DecidableEq, Repr

/-- Modelled from the spec: the failure of the storage layer, a violated unique
constraint on the named field. -/
inductive StoreError where
  | uniqueConstraint (field : String)
  deriving DecidableEq, Repr

/-- The empty database. -/
def Db.empty : Db := { users := [], posts := [], profiles := [] }

/-- Modelled from the spec: the next identifier of a table, one more than the
largest in use. -/
def nextId (ids : List Nat) : Nat := ids.foldl max 0 + 1

/-- Modelled from the spec: the default of the published flag of a post. -/
def publishedDefault : Bool := false

/-- Modelled from the spec: the nested write of `user.create`. A second user
with an email already stored is refused and the database is left as it was;
otherwise the user, its posts and its profile are inserted together. -/
def Db.userCreate (args : UserCreateArgs) (db : Db) : Except StoreError Unit × Db :=
  if db.users.any (fun u => u.email == args.data.email) then
    (.error (.uniqueConstraint "email"), db)
  else
    let uid := nextId (db.users.map (fun u => u.id))
    let pid := nextId (db.posts.map (fun p => p.id))
    let fid := nextId (db.profiles.map (fun p => p.id))
    let posts : List Post :=
      args.data.posts.enum.map
        (fun ip => { id := pid + ip.1, title := ip.2.title,
                     published := ip.2.published.getD publishedDefault, authorId := uid })
    let profiles : List Profile :=
      match args.data.profile with
      | some p => [{ id := fid, bio := p.bio, userId := uid }]
      | none => []
    (.ok (),
      { users := db.users ++ [{ id := uid, name := args.data.name, email := args.data.email }]
        posts := db.posts ++ posts
        profiles := db.profiles ++ profiles })

/-- Modelled from the spec: whether a user passes a `where` filter. -/
def UserWhereInput.holds (f : UserWhereInput) (u : User) : Bool :=
  (match f.name with
    | some n => u.name == n
    | none => true) &&
  (match f.email with
    | some e => u.email == e
    | none => true)

/-- Modelled from the spec: the read of `user.findMany`. All users that pass the
filter, each with the relations that are included; the database is not
changed. -/
def Db.userFindMany (args : UserFindManyArgs) (db : Db) :
    Except StoreError (List UserWithRelations) × Db :=
  let selected :=
    match args.filter with
    | some f => db.users.filter f.holds
    | none => db.users
  (.ok (selected.map (fun u =>
      { id := u.id, name := u.name, email := u.email
        posts := if args.include_.posts then db.posts.filter (fun p => p.authorId == u.id) else []
        profile :=
          if args.include_.profile then db.profiles.find? (fun p => p.userId == u.id)
          else none })),
    db)

/-- Modelled from the spec: the client over the store. Disconnecting and
rendering succeed and leave the database as it is. -/
def storeEnv : Env Db (List UserWithRelations) StoreError where
  userCreate := Db.userCreate
  userFindMany := Db.userFindMany
  disconnect := fun db => (.ok (), db)
  consoleDir := fun _ _ db => (.ok (), db)

/-! ## The inspector

`console.dir` prints what the inspector of the runtime makes of the value. The
inspector is outside the repository; the definitions below follow its
documented behaviour on the values the store returns. -/

/-- The limits the inspector works with. -/
structure InspectOptions where
  depth : Limit
  maxArrayLength : Limit
  maxStringLength : Limit
  deriving DecidableEq, Repr

/-- The defaults of the inspector: two levels of nesting, 100 items of an
array, 10000 characters of a string. -/
def inspectDefaults : InspectOptions :=
  { depth := .upTo 2, maxArrayLength := .upTo 100, maxStringLength := .upTo 10000 }

/-- The options in force for a call of `console.dir`: a key of the options
object replaces the default, a key that is absent leaves it. -/
def effectiveOptions (o : DirOptions) : InspectOptions :=
  { depth := o.depth.getD inspectDefaults.depth
    maxArrayLength := o.maxArrayLength.getD inspectDefaults.maxArrayLength
    maxStringLength := o.maxStringLength.getD inspectDefaults.maxStringLength }

/-- Options that limit nothing. -/
def noLimits : InspectOptions :=
  { depth := .unlimited, maxArrayLength := .unlimited, maxStringLength := .unlimited }

/-- Whether a limit lets `n` through. -/
def Limit.allows : Limit → Nat → Bool
  | .upTo m, n => decide (n ≤ m)
  | .unlimited, _ => true

/-- The items a limit keeps: the first `m`, or all of them. -/
def Limit.cut {β : Type} : Limit → List β → List β
  | .upTo m, xs => xs.take m
  | .unlimited, xs => xs

/-- What the inspector prints. `text` and `array` carry the number of
characters and of items that were left out; `elided` stands for an object or
array that lies deeper than the depth limit. -/
inductive Doc where
  | text (shown : String) (more : Nat)
  | number (n : Nat)
  | flag (b : Bool)
  | null
  | elided
  | array (items : List Doc) (more : Nat)
  | object (fields : List (String × Doc))

/-- A string as printed: the characters within the limit. -/
def inspectString (o : InspectOptions) (s : String) : Doc :=
  .text (String.mk (o.maxStringLength.cut s.data))
    (s.data.length - (o.maxStringLength.cut s.data).length)

/-- An array as printed: the items within the limit. -/
def inspectItems (o : InspectOptions) (items : List Doc) : Doc :=
  .array (o.maxArrayLength.cut items) (items.length - (o.maxArrayLength.cut items).length)

/-- A post as printed; it lies at nesting level 3 of the result. -/
def inspectPost (o : InspectOptions) (p : Post) : Doc :=
  if o.depth.allows 3 then
    .object [("id", .number p.id), ("title", inspectString o p.title),
      ("published", .flag p.published), ("authorId", .number p.authorId)]
  else .elided

/-- A profile as printed; it lies at nesting level 2 of the result. -/
def inspectProfile (o : InspectOptions) (f : Profile) : Doc :=
  if o.depth.allows 2 then
    .object [("id", .number f.id), ("bio", inspectString o f.bio),
      ("userId", .number f.userId)]
  else .elided

/-- A user as printed; it lies at nesting level 1 of the result, its posts
array at level 2. -/
def inspectUser (o : InspectOptions) (u : UserWithRelations) : Doc :=
  if o.depth.allows 1 then
    .object [("id", .number u.id), ("name", inspectString o u.name),
      ("email", inspectString o u.email),
      ("posts",
        if o.depth.allows 2 then inspectItems o (u.posts.map (inspectPost o)) else .elided),
      ("profile",
        match u.profile with
        | some f => inspectProfile o f
        | none => .null)]
  else .elided

/-- The result of `findMany` as printed: the array of users, at nesting
level 0. -/
def inspectUsers (o : InspectOptions) (us : List UserWithRelations) : Doc :=
  inspectItems o (us.map (inspectUser o))

/-- A result that lies within the default limits of the inspector on arrays
and strings. -/
def fitsDefaults (us : List UserWithRelations) : Prop :=
  us.length ≤ 100 ∧
    ∀ u ∈ us, u.name.length ≤ 10000 ∧ u.email.length ≤ 10000 ∧ u.posts.length ≤ 100 ∧
      (∀ p ∈ u.posts, p.title.length ≤ 10000) ∧
      ∀ f, u.profile = some f → f.bio.length ≤ 10000

/-- A database of `n` users, with emails "a", "aa", ... and no posts or
profiles. -/
def Db.ofUsers (n : Nat) : Db :=
  { users := (List.range n).map
      (fun i => { id := i + 1, name := "user", email := String.mk (List.replicate (i + 1) 'a') })
    posts := []
    profiles := [] }

/-! ## The steps of a run -/

section Steps

variable {σ α ε : Type}

/-- Whether a computation ended with a fulfilled promise. -/
def Completion.isFulfilled {τ : Type} : Completion ε τ → Bool
  | .fulfilled _ => true
  | _ => false

/-- How the call `main()` of a run from `s` ends, and the world it leaves. -/
def mainResult (env : Env σ α ε) (s : σ) : Completion ε Unit × World σ α ε :=
  main env { state := s, trace := [] }

/-- The answer to the first `$disconnect` of a run. Whichever handler runs
first issues it in the state that `main` leaves: `console.error` does not touch
the client. -/
def firstDisconnect (env : Env σ α ε) (s : σ) : Except ε Unit × σ :=
  env.disconnect (mainResult env s).2.state

/-- The answer to a `$disconnect` issued after the first one. -/
def secondDisconnect (env : Env σ α ε) (s : σ) : Except ε Unit × σ :=
  env.disconnect (firstDisconnect env s).2

/-- In a run from `s`, `user.create` rejects with `e`. -/
def createThrows (env : Env σ α ε) (s : σ) (e : ε) : Prop :=
  (env.userCreate createArgs s).1 = .error e

/-- In a run from `s`, `user.create` fulfils and `user.findMany` rejects with
`e`. -/
def findManyThrows (env : Env σ α ε) (s : σ) (e : ε) : Prop :=
  (env.userCreate createArgs s).1 = .ok () ∧
    (env.userFindMany findManyArgs (env.userCreate createArgs s).2).1 = .error e

/-- In a run from `s`, both requests fulfil and the rendering by `console.dir`
throws `e`. -/
def renderThrows (env : Env σ α ε) (s : σ) (e : ε) : Prop :=
  (env.userCreate createArgs s).1 = .ok () ∧
    ∃ v, (env.userFindMany findManyArgs (env.userCreate createArgs s).2).1 = .ok v ∧
      (env.consoleDir v dirOptions
        (env.userFindMany findManyArgs (env.userCreate createArgs s).2).2).1 = .error e

/-- Some step of `main` throws `e`: the create, the read or the rendering. -/
def stepThrows (env : Env σ α ε) (s : σ) (e : ε) : Prop :=
  createThrows env s e ∨ findManyThrows env s e ∨ renderThrows env s e

/-- An environment that answers from a script: fixed outcomes for `user.create`,
`user.findMany` and `console.dir`, and the list `disc` of outcomes of the
successive `$disconnect` calls (a call beyond the list fulfils). The state
counts the `$disconnect` calls made. -/
def scriptedEnv (create : Except String Unit) (find : Except String Nat)
    (dir : Except String Unit) (disc : List (Except String Unit)) : Env Nat Nat String where
  userCreate := fun _ n => (create, n)
  userFindMany := fun _ n => (find, n)
  disconnect := fun n => (disc.getD n (.ok ()), n + 1)
  consoleDir := fun _ _ n => (dir, n)

end Steps

/-! ## Reading a trace and an outcome -/

section Observations

variable {α ε : Type}

/-- Whether an effect is a call of `$disconnect`. -/
def Effect.isDisconnectCall : Effect α ε → Bool
  | .call .disconnect => true
  | _ => false

/-- How many times `$disconnect` is invoked in a trace. -/
def disconnectCalls (tr : List (Effect α ε)) : Nat := tr.countP Effect.isDisconnectCall

/-- The requests issued on the client handle, in order. -/
def requests : List (Effect α ε) → List Request
  | [] => []
  | .call r :: tr => r :: requests tr
  | _ :: tr => requests tr

/-- The data operations of a trace: the requests other than `$disconnect`. -/
def dataRequests (tr : List (Effect α ε)) : List Request :=
  (requests tr).filter (fun r => decide (r ≠ Request.disconnect))

/-- Whether a request changes or removes existing rows. -/
def Request.isUpdateOrDelete : Request → Bool
  | .update _ => true
  | .delete _ => true
  | _ => false

/-- Whether a request is a `user.create`. -/
def Request.isUserCreate : Request → Bool
  | .userCreate _ => true
  | _ => false

/-- Whether a request is a `user.findMany`. -/
def Request.isUserFindMany : Request → Bool
  | .userFindMany _ => true
  | _ => false

/-- Whether an effect is the issuing of a `user.findMany`. -/
def Effect.isFindManyCall : Effect α ε → Bool
  | .call (.userFindMany _) => true
  | _ => false

/-- The values and options passed to `console.dir`, in order. -/
def dirCalls : List (Effect α ε) → List (α × DirOptions)
  | [] => []
  | .consoleDir v o :: tr => (v, o) :: dirCalls tr
  | _ :: tr => dirCalls tr

/-- What the calls of `console.dir` in a trace print to standard output. -/
def stdoutWrites {ε : Type} (tr : List (Effect (List UserWithRelations) ε)) : List Doc :=
  (dirCalls tr).map (fun c => inspectUsers (effectiveOptions c.2) c.1)

/-- The values written to standard error, in order. -/
def stderrWrites : List (Effect α ε) → List ε
  | [] => []
  | .consoleError e :: tr => e :: stderrWrites tr
  | _ :: tr => stderrWrites tr

/-- The codes `process.exit` was called with, in order. -/
def exitCalls : List (Effect α ε) → List Nat
  | [] => []
  | .processExit c :: tr => c :: exitCalls tr
  | _ :: tr => exitCalls tr

/-- The number of requests that are issued and not yet settled at the end of a
trace. -/
def outstanding : List (Effect α ε) → Int
  | [] => 0
  | .call _ :: tr => outstanding tr + 1
  | .settled _ _ :: tr => outstanding tr - 1
  | _ :: tr => outstanding tr

/-- The exit status of the process. A run that ends with a rejected promise
nobody handles gets the status `unhandled` the runtime gives to an unhandled
rejection; the runtime ends such a process with status 1 unless it is told
otherwise. -/
def exitStatus {τ : Type} (unhandled : Nat) : Completion ε τ → Nat
  | .fulfilled _ => 0
  | .rejected _ => unhandled
  | .exited c => c

end Observations

/-! ## How a run unfolds -/

section Lemmas

variable {σ α ε : Type}

/-- Sequencing in `do` blocks is `Async.bind`. -/
theorem bind_apply {τ υ : Type} (x : Async σ α ε τ) (f : τ → Async σ α ε υ) (w : World σ α ε) :
    (x >>= f) w = Async.bind x f w := rfl

/-- Every answer of the environment is a pair of an outcome and a state. -/
theorem answer_cases {τ : Type} (x : Except ε τ × σ) :
    (∃ v s, x = (.ok v, s)) ∨ (∃ e s, x = (.error e, s)) := by
  rcases x with ⟨r, s⟩
  cases r with
  | ok v => exact Or.inl ⟨v, s, rfl⟩
  | error e => exact Or.inr ⟨e, s, rfl⟩

/-- The four ways `main` can end, with the trace of each. -/
theorem mainResult_cases (env : Env σ α ε) (s : σ) :
    (∃ e s1, env.userCreate createArgs s = (.error e, s1) ∧
      mainResult env s = (.rejected e, ⟨s1, [.call (.userCreate createArgs),
        .settled (.userCreate createArgs) false]⟩)) ∨
    (∃ s1 e s2, env.userCreate createArgs s = (.ok (), s1) ∧
      env.userFindMany findManyArgs s1 = (.error e, s2) ∧
      mainResult env s = (.rejected e, ⟨s2, [.call (.userCreate createArgs),
        .settled (.userCreate createArgs) true, .call (.userFindMany findManyArgs),
        .settled (.userFindMany findManyArgs) false]⟩)) ∨
    (∃ s1 v s2 e s3, env.userCreate createArgs s = (.ok (), s1) ∧
      env.userFindMany findManyArgs s1 = (.ok v, s2) ∧
      env.consoleDir v dirOptions s2 = (.error e, s3) ∧
      mainResult env s = (.rejected e, ⟨s3, [.call (.userCreate createArgs),
        .settled (.userCreate createArgs) true, .call (.userFindMany findManyArgs),
        .settled (.userFindMany findManyArgs) true, .consoleDir v dirOptions]⟩)) ∨
    (∃ s1 v s2 s3, env.userCreate createArgs s = (.ok (), s1) ∧
      env.userFindMany findManyArgs s1 = (.ok v, s2) ∧
      env.consoleDir v dirOptions s2 = (.ok (), s3) ∧
      mainResult env s = (.fulfilled (), ⟨s3, [.call (.userCreate createArgs),
        .settled (.userCreate createArgs) true, .call (.userFindMany findManyArgs),
        .settled (.userFindMany findManyArgs) true, .consoleDir v dirOptions]⟩)) := by
  rcases answer_cases (env.userCreate createArgs s) with ⟨u, s1, h1⟩ | ⟨e, s1, h1⟩
  · rcases answer_cases (env.userFindMany findManyArgs s1) with ⟨v, s2, h2⟩ | ⟨e, s2, h2⟩
    · rcases answer_cases (env.consoleDir v dirOptions s2) with ⟨u3, s3, h3⟩ | ⟨e, s3, h3⟩
      · refine Or.inr (Or.inr (Or.inr ⟨s1, v, s2, s3, h1, h2, h3, ?_⟩))
        simp [mainResult, main, bind_apply, Async.bind, prismaUserCreate, prismaUserFindMany,
          Async.await, consoleDir, h1, h2, h3]
      · refine Or.inr (Or.inr (Or.inl ⟨s1, v, s2, e, s3, h1, h2, h3, ?_⟩))
        simp [mainResult, main, bind_apply, Async.bind, prismaUserCreate, prismaUserFindMany,
          Async.await, consoleDir, h1, h2, h3]
    · refine Or.inr (Or.inl ⟨s1, e, s2, h1, h2, ?_⟩)
      simp [mainResult, main, bind_apply, Async.bind, prismaUserCreate, prismaUserFindMany,
        Async.await, consoleDir, h1, h2]
  · refine Or.inl ⟨e, s1, h1, ?_⟩
    simp [mainResult, main, bind_apply, Async.bind, prismaUserCreate, prismaUserFindMany,
      Async.await, consoleDir, h1]

/-- The failure handler, by the answer to its `$disconnect`. -/
theorem onRejected_cases (env : Env σ α ε) (err : ε) (w : World σ α ε) :
    (∃ s1, env.disconnect w.state = (.ok (), s1) ∧
      onRejected env err w = (.exited 1, ⟨s1, w.trace ++ [.consoleError err,
        .call .disconnect, .settled .disconnect true, .processExit 1]⟩)) ∨
    (∃ d s1, env.disconnect w.state = (.error d, s1) ∧
      onRejected env err w = (.rejected d, ⟨s1, w.trace ++ [.consoleError err,
        .call .disconnect, .settled .disconnect false]⟩)) := by
  rcases answer_cases (env.disconnect w.state) with ⟨u, s1, h⟩ | ⟨d, s1, h⟩
  · refine Or.inl ⟨s1, h, ?_⟩
    simp [onRejected, bind_apply, Async.bind, consoleError, Async.emit, prismaDisconnect,
      Async.await, processExit, h]
  · refine Or.inr ⟨d, s1, h, ?_⟩
    simp [onRejected, bind_apply, Async.bind, consoleError, Async.emit, prismaDisconnect,
      Async.await, processExit, h]

/-- A run whose `main` rejects goes through the failure handler once. -/
theorem run_of_main_rejected (env : Env σ α ε) (s : σ) (e : ε) (w1 : World σ α ε)
    (h : mainResult env s = (.rejected e, w1)) :
    (∃ s2, firstDisconnect env s = (.ok (), s2) ∧
      run env s = (.exited 1, ⟨s2, w1.trace ++ [.consoleError e, .call .disconnect,
        .settled .disconnect true, .processExit 1]⟩)) ∨
    (∃ d s2, firstDisconnect env s = (.error d, s2) ∧
      run env s = (.rejected d, ⟨s2, w1.trace ++ [.consoleError e, .call .disconnect,
        .settled .disconnect false]⟩)) := by
  have hrun : run env s = onRejected env e w1 := by
    unfold mainResult at h
    simp [run, script, Async.andThen, Async.catchWith, Async.bind, h]
  have hfd : firstDisconnect env s = env.disconnect w1.state := by
    simp [firstDisconnect, h]
  rw [hrun, hfd]
  exact onRejected_cases env e w1

/-- A run whose `main` fulfils disconnects; when that rejects, the failure
handler runs as well. -/
theorem run_of_main_fulfilled (env : Env σ α ε) (s : σ) (w1 : World σ α ε)
    (h : mainResult env s = (.fulfilled (), w1)) :
    (∃ s2, firstDisconnect env s = (.ok (), s2) ∧
      run env s = (.fulfilled (), ⟨s2, w1.trace ++ [.call .disconnect,
        .settled .disconnect true]⟩)) ∨
    (∃ e s2 s3, firstDisconnect env s = (.error e, s2) ∧
      secondDisconnect env s = (.ok (), s3) ∧
      run env s = (.exited 1, ⟨s3, w1.trace ++ [.call .disconnect,
        .settled .disconnect false, .consoleError e, .call .disconnect,
        .settled .disconnect true, .processExit 1]⟩)) ∨
    (∃ e s2 d s3, firstDisconnect env s = (.error e, s2) ∧
      secondDisconnect env s = (.error d, s3) ∧
      run env s = (.rejected d, ⟨s3, w1.trace ++ [.call .disconnect,
        .settled .disconnect false, .consoleError e, .call .disconnect,
        .settled .disconnect false]⟩)) := by
  have hfd : firstDisconnect env s = env.disconnect w1.state := by
    simp [firstDisconnect, h]
  unfold mainResult at h
  rcases answer_cases (env.disconnect w1.state) with ⟨u, s2, hd⟩ | ⟨e, s2, hd⟩
  · refine Or.inl ⟨s2, by rw [hfd, hd], ?_⟩
    simp [run, script, Async.andThen, Async.catchWith, Async.bind, onFulfilled,
      prismaDisconnect, Async.await, h, hd]
  · have hrun : run env s = onRejected env e ⟨s2, w1.trace ++ [.call .disconnect,
        .settled .disconnect false]⟩ := by
      simp [run, script, Async.andThen, Async.catchWith, Async.bind, onFulfilled,
        prismaDisconnect, Async.await, h, hd]
    have hsd : secondDisconnect env s = env.disconnect s2 := by
      simp [secondDisconnect, hfd, hd]
    rcases onRejected_cases env e ⟨s2, w1.trace ++ [.call .disconnect,
        .settled .disconnect false]⟩ with ⟨s3, hd2, hr⟩ | ⟨d, s3, hd2, hr⟩
    · refine Or.inr (Or.inl ⟨e, s2, s3, by rw [hfd, hd], by rw [hsd]; exact hd2, ?_⟩)
      rw [hrun, hr]; simp
    · refine Or.inr (Or.inr ⟨e, s2, d, s3, by rw [hfd, hd], by rw [hsd]; exact hd2, ?_⟩)
      rw [hrun, hr]; simp


/-- A step of `main` throws `e` exactly when `main()` is rejected with `e`. -/
theorem stepThrows_iff (env : Env σ α ε) (s : σ) (e : ε) :
    stepThrows env s e ↔ (mainResult env s).1 = .rejected e := by
  rcases mainResult_cases env s with ⟨e1, s1, h1, hm⟩ | ⟨s1, e1, s2, h1, h2, hm⟩ |
      ⟨s1, v, s2, e1, s3, h1, h2, h3, hm⟩ | ⟨s1, v, s2, s3, h1, h2, h3, hm⟩ <;>
    simp [stepThrows, createThrows, findManyThrows, renderThrows, *]

/-- No step of `main` throws exactly when `main()` is fulfilled. -/
theorem no_stepThrows_iff (env : Env σ α ε) (s : σ) :
    (∀ e, ¬ stepThrows env s e) ↔ (mainResult env s).1 = .fulfilled () := by
  rcases mainResult_cases env s with ⟨e1, s1, h1, hm⟩ | ⟨s1, e1, s2, h1, h2, hm⟩ |
      ⟨s1, v, s2, e1, s3, h1, h2, h3, hm⟩ | ⟨s1, v, s2, s3, h1, h2, h3, hm⟩ <;>
    simp [stepThrows, createThrows, findManyThrows, renderThrows, *]

/-- The database a run over the store leaves is the one `user.create` leaves. -/
theorem run_storeEnv_state (db : Db) :
    (run storeEnv db).2.state = (Db.userCreate createArgs db).2 := by
  rcases mainResult_cases storeEnv db with ⟨e1, s1, h1, hm⟩ | ⟨s1, e1, s2, h1, h2, hm⟩ |
      ⟨s1, v, s2, e1, s3, h1, h2, h3, hm⟩ | ⟨s1, v, s2, s3, h1, h2, h3, hm⟩
  · have hs : (Db.userCreate createArgs db).2 = s1 := congrArg Prod.snd h1
    rcases run_of_main_rejected storeEnv db _ _ hm with ⟨t, hd1, hr⟩ | ⟨d, t, hd1, hr⟩
    · rw [firstDisconnect, hm] at hd1
      simp [storeEnv] at hd1
      rw [hr, hs, ← hd1]
    · rw [firstDisconnect, hm] at hd1
      simp [storeEnv] at hd1
  · simp [storeEnv, Db.userFindMany] at h2
  · simp [storeEnv] at h3
  · have hs : (Db.userCreate createArgs db).2 = s1 := congrArg Prod.snd h1
    have hs2 : s2 = s1 := by
      have := congrArg Prod.snd h2
      simpa [storeEnv, Db.userFindMany] using this.symm
    have hs3 : s3 = s2 := by
      have := congrArg Prod.snd h3
      simpa [storeEnv] using this.symm
    rcases run_of_main_fulfilled storeEnv db _ hm with ⟨t, hd1, hr⟩ | ⟨e2, t, t2, hd1, hd2, hr⟩ |
        ⟨e2, t, d, t2, hd1, hd2, hr⟩
    · rw [firstDisconnect, hm] at hd1
      simp [storeEnv] at hd1
      rw [hr, hs, ← hd1, hs3, hs2]
    · rw [firstDisconnect, hm] at hd1
      simp [storeEnv] at hd1
    · rw [firstDisconnect, hm] at hd1
      simp [storeEnv] at hd1

/-- A string within the limit is printed whole. -/
theorem inspectString_of_fits (o : InspectOptions) (n : Nat) (s : String)
    (ho : o.maxStringLength = .upTo n) (h : s.length ≤ n) :
    inspectString o s = inspectString noLimits s := by
  have hl : s.data.length ≤ n := h
  simp [inspectString, Limit.cut, noLimits, ho, List.take_of_length_le hl]

/-- An array within the limit is printed whole. -/
theorem inspectItems_of_fits (o : InspectOptions) (n : Nat) (items : List Doc)
    (ho : o.maxArrayLength = .upTo n) (h : items.length ≤ n) :
    inspectItems o items = inspectItems noLimits items := by
  simp [inspectItems, Limit.cut, noLimits, ho, List.take_of_length_le h]

/-- With no depth limit and the default limits on arrays and strings, a result
within those limits is printed as it is with no limit at all. -/
theorem inspectUsers_of_fits (o : InspectOptions) (hd : o.depth = .unlimited)
    (ha : o.maxArrayLength = .upTo 100) (hs : o.maxStringLength = .upTo 10000)
    (us : List UserWithRelations) (h : fitsDefaults us) :
    inspectUsers o us = inspectUsers noLimits us := by
  obtain ⟨hlen, hu⟩ := h
  have hpost : ∀ p : Post, p.title.length ≤ 10000 → inspectPost o p = inspectPost noLimits p := by
    intro p hp
    simp only [inspectPost, inspectString_of_fits o _ _ hs hp, hd]
    simp [Limit.allows, noLimits]
  have hprofile : ∀ f : Profile, f.bio.length ≤ 10000 →
      inspectProfile o f = inspectProfile noLimits f := by
    intro f hf
    simp only [inspectProfile, inspectString_of_fits o _ _ hs hf, hd]
    simp [Limit.allows, noLimits]
  have huser : ∀ u ∈ us, inspectUser o u = inspectUser noLimits u := by
    intro u hmem
    obtain ⟨hn, he, hpl, hpt, hf⟩ := hu u hmem
    have hposts : u.posts.map (inspectPost o) = u.posts.map (inspectPost noLimits) :=
      List.map_congr_left (fun p hp => hpost p (hpt p hp))
    have hitems : inspectItems o (u.posts.map (inspectPost noLimits)) =
        inspectItems noLimits (u.posts.map (inspectPost noLimits)) :=
      inspectItems_of_fits o _ _ ha (by simpa using hpl)
    have hprof : (match u.profile with
        | some f => inspectProfile o f
        | none => Doc.null) =
        (match u.profile with
        | some f => inspectProfile noLimits f
        | none => Doc.null) := by
      cases hpf : u.profile with
      | none => rfl
      | some f => exact hprofile f (hf f hpf)
    simp only [inspectUser, inspectString_of_fits o _ _ hs hn, inspectString_of_fits o _ _ hs he,
      hposts, hitems, hd]
    simpa [Limit.allows, noLimits] using hprof
  simp only [inspectUsers]
  rw [List.map_congr_left huser]
  exact inspectItems_of_fits o _ _ ha (by simpa using hlen)

end Lemmas

/-! ## The claims -/

section Claims

variable {σ α ε : Type}

/-- C1 (amended): in every run `$disconnect` is invoked exactly once, except
when `main` succeeds and the `$disconnect` of the success handler rejects; then
it is invoked exactly twice. -/
theorem disconnect_once_unless_success_disconnect_rejects (env : Env σ α ε) (s : σ) :
    disconnectCalls (run env s).2.trace =
      if (mainResult env s).1.isFulfilled && !(firstDisconnect env s).1.isOk then 2 else 1 := by
  rcases mainResult_cases env s with ⟨e, s1, _, hm⟩ | ⟨s1, e, s2, _, _, hm⟩ |
      ⟨s1, v, s2, e, s3, _, _, _, hm⟩ | ⟨s1, v, s2, s3, _, _, _, hm⟩
  · rcases run_of_main_rejected env s _ _ hm with ⟨t, hd, hr⟩ | ⟨d, t, hd, hr⟩ <;>
      simp [hm, hd, hr, disconnectCalls, Effect.isDisconnectCall, Completion.isFulfilled]
  · rcases run_of_main_rejected env s _ _ hm with ⟨t, hd, hr⟩ | ⟨d, t, hd, hr⟩ <;>
      simp [hm, hd, hr, disconnectCalls, Effect.isDisconnectCall, Completion.isFulfilled]
  · rcases run_of_main_rejected env s _ _ hm with ⟨t, hd, hr⟩ | ⟨d, t, hd, hr⟩ <;>
      simp [hm, hd, hr, disconnectCalls, Effect.isDisconnectCall, Completion.isFulfilled]
  · rcases run_of_main_fulfilled env s _ hm with ⟨t, hd, hr⟩ | ⟨e, t, t2, hd, hd2, hr⟩ |
        ⟨e, t, d, t2, hd, hd2, hr⟩ <;>
      simp [hm, hd, hr, disconnectCalls, Effect.isDisconnectCall, Completion.isFulfilled,
        Except.isOk, Except.toBool]

/-- C1 fails as stated: create, read and rendering succeed, the first
`$disconnect` rejects with "E" and the second fulfils; `$disconnect` is invoked
twice, not once. -/
theorem disconnect_twice_counterexample :
    (∀ e, ¬ stepThrows (scriptedEnv (.ok ()) (.ok 7) (.ok ()) [.error "E"]) 0 e) ∧
    disconnectCalls (run (scriptedEnv (.ok ()) (.ok 7) (.ok ()) [.error "E"]) 0).2.trace = 2 ∧
    ¬ disconnectCalls (run (scriptedEnv (.ok ()) (.ok 7) (.ok ()) [.error "E"]) 0).2.trace = 1 := by
  refine ⟨?_, rfl, by decide⟩
  rw [no_stepThrows_iff]; rfl

/-- C2 (amended): in every run, with the runtime ending the process with
status 1 on an unhandled rejection: if a step of `main` throws (the create, the
read or the rendering) the exit status is 1, through `process.exit(1)` when the
`$disconnect` of the failure handler fulfils and through the unhandled
rejection of that `$disconnect` otherwise; if no step throws and the
`$disconnect` of the success handler fulfils, `process.exit` is never called
and the run ends normally, exit status 0; if no step throws and that
`$disconnect` rejects, the exit status is 1. -/
theorem exit_status_by_steps (env : Env σ α ε) (s : σ) :
    (∀ e, stepThrows env s e →
      exitStatus 1 (run env s).1 = 1 ∧
      ((firstDisconnect env s).1 = .ok () →
        (run env s).1 = .exited 1 ∧ exitCalls (run env s).2.trace = [1]) ∧
      (∀ d, (firstDisconnect env s).1 = .error d →
        (run env s).1 = .rejected d ∧ exitCalls (run env s).2.trace = [])) ∧
    ((∀ e, ¬ stepThrows env s e) → (firstDisconnect env s).1 = .ok () →
      (run env s).1 = .fulfilled () ∧ exitCalls (run env s).2.trace = [] ∧
        ∀ u, exitStatus u (run env s).1 = 0) ∧
    ((∀ e, ¬ stepThrows env s e) → ∀ d, (firstDisconnect env s).1 = .error d →
      exitStatus 1 (run env s).1 = 1) := by
  simp only [stepThrows_iff, no_stepThrows_iff]
  rcases mainResult_cases env s with ⟨e1, s1, _, hm⟩ | ⟨s1, e1, s2, _, _, hm⟩ |
      ⟨s1, v, s2, e1, s3, _, _, _, hm⟩ | ⟨s1, v, s2, s3, _, _, _, hm⟩
  · rcases run_of_main_rejected env s _ _ hm with ⟨t, hd1, hr⟩ | ⟨d, t, hd1, hr⟩ <;>
      simp [hm, hr, hd1, exitCalls, exitStatus]
  · rcases run_of_main_rejected env s _ _ hm with ⟨t, hd1, hr⟩ | ⟨d, t, hd1, hr⟩ <;>
      simp [hm, hr, hd1, exitCalls, exitStatus]
  · rcases run_of_main_rejected env s _ _ hm with ⟨t, hd1, hr⟩ | ⟨d, t, hd1, hr⟩ <;>
      simp [hm, hr, hd1, exitCalls, exitStatus]
  · rcases run_of_main_fulfilled env s _ hm with ⟨t, hd1, hr⟩ | ⟨e, t, t2, hd1, hd2, hr⟩ |
        ⟨e, t, d, t2, hd1, hd2, hr⟩ <;>
      simp [hm, hr, hd1, exitCalls, exitStatus]

/-- Witness of C2 (amended): the first run over the empty store, where no step
throws and `$disconnect` fulfils; the second run, where `user.create` throws;
and a run where `user.create` throws and `$disconnect` rejects. -/
theorem exit_status_by_steps_witness :
    ((∀ e, ¬ stepThrows storeEnv Db.empty e) ∧
      (firstDisconnect storeEnv Db.empty).1 = .ok () ∧
      (run storeEnv Db.empty).1 = .fulfilled () ∧
      exitCalls (run storeEnv Db.empty).2.trace = []) ∧
    (stepThrows storeEnv (run storeEnv Db.empty).2.state (.uniqueConstraint "email") ∧
      exitStatus 1 (run storeEnv (run storeEnv Db.empty).2.state).1 = 1) ∧
    (stepThrows (scriptedEnv (.error "boom") (.ok 7) (.ok ()) [.error "down"]) 0 "boom" ∧
      (firstDisconnect (scriptedEnv (.error "boom") (.ok 7) (.ok ()) [.error "down"]) 0).1
        = .error "down" ∧
      exitStatus 1 (run (scriptedEnv (.error "boom") (.ok 7) (.ok ()) [.error "down"]) 0).1
        = 1) :=
  have hnone : ∀ e, ¬ stepThrows storeEnv Db.empty e := (no_stepThrows_iff _ _).2 rfl
  have hthrows :
      stepThrows storeEnv (run storeEnv Db.empty).2.state (.uniqueConstraint "email") :=
    Or.inl rfl
  have hboom :
      stepThrows (scriptedEnv (.error "boom") (.ok 7) (.ok ()) [.error "down"]) 0 "boom" :=
    Or.inl rfl
  ⟨⟨hnone, rfl,
      ((exit_status_by_steps storeEnv Db.empty).2.1 hnone rfl).1,
      ((exit_status_by_steps storeEnv Db.empty).2.1 hnone rfl).2.1⟩,
    ⟨hthrows, ((exit_status_by_steps storeEnv _).1 _ hthrows).1⟩,
    ⟨hboom, rfl, ((exit_status_by_steps _ 0).1 _ hboom).1⟩⟩

/-- C2 fails as stated: no step of `main` throws, the `$disconnect` of the
success handler rejects with "E" and the next one fulfils; `process.exit(1)` is
called. -/
theorem exit_after_success_counterexample :
    (∀ e, ¬ stepThrows (scriptedEnv (.ok ()) (.ok 7) (.ok ()) [.error "E"]) 0 e) ∧
    (run (scriptedEnv (.ok ()) (.ok 7) (.ok ()) [.error "E"]) 0).1 = .exited 1 ∧
    exitCalls (run (scriptedEnv (.ok ()) (.ok 7) (.ok ()) [.error "E"]) 0).2.trace = [1] := by
  refine ⟨?_, rfl, rfl⟩
  rw [no_stepThrows_iff]; rfl

/-- C3: a run over the empty store leaves one user, one post and one profile,
and `console.dir` receives a list of one user with the name, email, single post
title and profile bio of the literals in `main`. -/
theorem first_run_on_empty_database :
    (run storeEnv Db.empty).2.state.users.length = 1 ∧
    (run storeEnv Db.empty).2.state.posts.length = 1 ∧
    (run storeEnv Db.empty).2.state.profiles.length = 1 ∧
    ∃ u p f, dirCalls (run storeEnv Db.empty).2.trace = [([u], dirOptions)] ∧
      u.name = "danishKodeMonkey" ∧ u.email = "danish@KodeMonkey.banana" ∧
      u.posts = [p] ∧ p.title = "Hello world" ∧
      u.profile = some f ∧ f.bio = "I like bananas" :=
  ⟨rfl, rfl, rfl, _, _, _, rfl, rfl, rfl, rfl, rfl, rfl, rfl⟩

/-- C4: over a store that already holds a user with the email of the script,
`user.create` rejects on the unique email, the store is unchanged, no read is
issued, `$disconnect` is invoked once and the run ends with `process.exit(1)`. -/
theorem second_run_fails_at_create (db : Db)
    (h : ∃ u ∈ db.users, u.email = "danish@KodeMonkey.banana") :
    createThrows storeEnv db (.uniqueConstraint "email") ∧
    (run storeEnv db).2.state = db ∧
    (run storeEnv db).2.trace =
      [.call (.userCreate createArgs), .settled (.userCreate createArgs) false,
        .consoleError (.uniqueConstraint "email"), .call .disconnect,
        .settled .disconnect true, .processExit 1] ∧
    requests (run storeEnv db).2.trace = [.userCreate createArgs, .disconnect] ∧
    (run storeEnv db).1 = .exited 1 ∧
    ∀ u, exitStatus u (run storeEnv db).1 = 1 := by
  have hc : storeEnv.userCreate createArgs db = (.error (.uniqueConstraint "email"), db) := by
    obtain ⟨u, hu, he⟩ := h
    have : (db.users.any fun u => u.email == createArgs.data.email) = true := by
      rw [List.any_eq_true]
      exact ⟨u, hu, by simp [createArgs, he]⟩
    simp [storeEnv, Db.userCreate, this]
  rcases mainResult_cases storeEnv db with ⟨e1, s1, h1, hm⟩ | ⟨s1, e1, s2, h1, h2, hm⟩ |
      ⟨s1, v, s2, e1, s3, h1, h2, h3, hm⟩ | ⟨s1, v, s2, s3, h1, h2, h3, hm⟩
  · rw [hc] at h1
    cases h1
    rcases run_of_main_rejected storeEnv db _ _ hm with ⟨t, hd1, hr⟩ | ⟨d, t, hd1, hr⟩
    · have ht : t = db := by
        rw [firstDisconnect, hm] at hd1
        simp [storeEnv] at hd1
        exact hd1.symm
      subst ht
      simp [hr, createThrows, hc, requests, exitStatus]
    · rw [firstDisconnect, hm] at hd1
      simp [storeEnv] at hd1
  · rw [hc] at h1; cases h1
  · rw [hc] at h1; cases h1
  · rw [hc] at h1; cases h1

/-- Witness of C4: the second run, over the store the first run leaves. -/
theorem second_run_fails_at_create_witness :
    (∃ u ∈ (run storeEnv Db.empty).2.state.users, u.email = "danish@KodeMonkey.banana") ∧
    (run storeEnv (run storeEnv Db.empty).2.state).2.state = (run storeEnv Db.empty).2.state ∧
    (run storeEnv (run storeEnv Db.empty).2.state).1 = .exited 1 :=
  have h : ∃ u ∈ (run storeEnv Db.empty).2.state.users, u.email = "danish@KodeMonkey.banana" :=
    ⟨⟨1, "danishKodeMonkey", "danish@KodeMonkey.banana"⟩, by decide, rfl⟩
  ⟨h, (second_run_fails_at_create _ h).2.1, (second_run_fails_at_create _ h).2.2.2.2.1⟩

/-- C5 (amended): when `user.create` or `user.findMany` rejects with `e`, the
trace continues after the requests of `main` with `console.error(e)`, then the
`$disconnect` call, and then `process.exit(1)` only if that `$disconnect`
fulfilled; `e` is the only value written to standard error and nothing is
passed to `console.dir`. -/
theorem failure_handler_order (env : Env σ α ε) (s : σ) (e : ε)
    (h : createThrows env s e ∨ findManyThrows env s e) :
    (run env s).2.trace =
        (mainResult env s).2.trace ++
          [.consoleError e, .call .disconnect,
            .settled .disconnect (firstDisconnect env s).1.isOk] ++
          (if (firstDisconnect env s).1.isOk then [.processExit 1] else []) ∧
      stderrWrites (mainResult env s).2.trace = [] ∧
      disconnectCalls (mainResult env s).2.trace = 0 ∧
      exitCalls (mainResult env s).2.trace = [] ∧
      stderrWrites (run env s).2.trace = [e] ∧
      dirCalls (run env s).2.trace = [] := by
  rcases mainResult_cases env s with ⟨e1, s1, h1, hm⟩ | ⟨s1, e1, s2, h1, h2, hm⟩ |
      ⟨s1, v, s2, e1, s3, h1, h2, h3, hm⟩ | ⟨s1, v, s2, s3, h1, h2, h3, hm⟩
  · have he : e1 = e := by
      simpa [createThrows, findManyThrows, h1] using h
    subst he
    rcases run_of_main_rejected env s _ _ hm with ⟨t, hd1, hr⟩ | ⟨d, t, hd1, hr⟩ <;>
      simp [hm, hr, hd1, exitCalls, stderrWrites, dirCalls, disconnectCalls,
        Effect.isDisconnectCall, Except.isOk, Except.toBool]
  · have he : e1 = e := by
      simpa [createThrows, findManyThrows, h1, h2] using h
    subst he
    rcases run_of_main_rejected env s _ _ hm with ⟨t, hd1, hr⟩ | ⟨d, t, hd1, hr⟩ <;>
      simp [hm, hr, hd1, exitCalls, stderrWrites, dirCalls, disconnectCalls,
        Effect.isDisconnectCall, Except.isOk, Except.toBool]
  · simp [createThrows, findManyThrows, h1, h2] at h
  · simp [createThrows, findManyThrows, h1, h2] at h

/-- Witness of C5 (amended): the second run over the store, where `user.create`
rejects on the unique email. -/
theorem failure_handler_order_witness :
    (createThrows storeEnv (run storeEnv Db.empty).2.state (.uniqueConstraint "email") ∨
      findManyThrows storeEnv (run storeEnv Db.empty).2.state (.uniqueConstraint "email")) ∧
    (run storeEnv (run storeEnv Db.empty).2.state).2.trace =
      [.call (.userCreate createArgs), .settled (.userCreate createArgs) false,
        .consoleError (.uniqueConstraint "email"), .call .disconnect,
        .settled .disconnect true, .processExit 1] :=
  ⟨Or.inl rfl,
    (failure_handler_order storeEnv (run storeEnv Db.empty).2.state
      (.uniqueConstraint "email") (Or.inl rfl)).1.trans rfl⟩

/-- C5 fails as stated: `user.create` rejects with "boom" and the `$disconnect` of
the failure handler rejects with "down"; "boom" is written, `$disconnect` is
invoked, and `process.exit` is never called. -/
theorem no_exit_when_handler_disconnect_rejects_counterexample :
    createThrows (scriptedEnv (.error "boom") (.ok 7) (.ok ()) [.error "down"]) 0 "boom" ∧
    stderrWrites (run (scriptedEnv (.error "boom") (.ok 7) (.ok ()) [.error "down"]) 0).2.trace
      = ["boom"] ∧
    disconnectCalls (run (scriptedEnv (.error "boom") (.ok 7) (.ok ()) [.error "down"]) 0).2.trace
      = 1 ∧
    exitCalls (run (scriptedEnv (.error "boom") (.ok 7) (.ok ()) [.error "down"]) 0).2.trace
      = [] ∧
    (run (scriptedEnv (.error "boom") (.ok 7) (.ok ()) [.error "down"]) 0).1 =
      .rejected "down" :=
  ⟨rfl, rfl, rfl, rfl, rfl⟩

/-- C6: at every point of a run at most one request is outstanding; when
`user.findMany` is issued, what precedes it is exactly the call of `user.create`
and its successful settlement; when `user.create` rejects, `user.findMany` is
never issued and `console.dir` is never called. -/
theorem requests_are_sequential (env : Env σ α ε) (s : σ) :
    (∀ n, 0 ≤ outstanding ((run env s).2.trace.take n) ∧
      outstanding ((run env s).2.trace.take n) ≤ 1) ∧
    ((run env s).2.trace.any Effect.isFindManyCall = true →
      (run env s).2.trace.takeWhile (fun ev => !ev.isFindManyCall) =
        [.call (.userCreate createArgs), .settled (.userCreate createArgs) true]) ∧
    (∀ e, createThrows env s e →
      (run env s).2.trace.any Effect.isFindManyCall = false ∧
        dirCalls (run env s).2.trace = []) := by
  rcases mainResult_cases env s with ⟨e1, s1, h1, hm⟩ | ⟨s1, e1, s2, h1, h2, hm⟩ |
      ⟨s1, v, s2, e1, s3, h1, h2, h3, hm⟩ | ⟨s1, v, s2, s3, h1, h2, h3, hm⟩
  · rcases run_of_main_rejected env s _ _ hm with ⟨t, hd1, hr⟩ | ⟨d, t, hd1, hr⟩ <;>
    · refine ⟨fun n => ?_, ?_, ?_⟩
      · rcases n with _ | _ | _ | _ | _ | _ | _ | _ | _ | _ | _ | _ | n <;>
          simp [hr, outstanding]
      · simp [hr, Effect.isFindManyCall]
      · simp [hr, Effect.isFindManyCall, dirCalls]
  · rcases run_of_main_rejected env s _ _ hm with ⟨t, hd1, hr⟩ | ⟨d, t, hd1, hr⟩ <;>
    · refine ⟨fun n => ?_, ?_, ?_⟩
      · rcases n with _ | _ | _ | _ | _ | _ | _ | _ | _ | _ | _ | _ | n <;>
          simp [hr, outstanding]
      · simp [hr, Effect.isFindManyCall, List.takeWhile]
      · simp [createThrows, h1]
  · rcases run_of_main_rejected env s _ _ hm with ⟨t, hd1, hr⟩ | ⟨d, t, hd1, hr⟩ <;>
    · refine ⟨fun n => ?_, ?_, ?_⟩
      · rcases n with _ | _ | _ | _ | _ | _ | _ | _ | _ | _ | _ | _ | n <;>
          simp [hr, outstanding]
      · simp [hr, Effect.isFindManyCall, List.takeWhile]
      · simp [createThrows, h1]
  · rcases run_of_main_fulfilled env s _ hm with ⟨t, hd1, hr⟩ | ⟨e2, t, t2, hd1, hd2, hr⟩ |
        ⟨e2, t, d, t2, hd1, hd2, hr⟩ <;>
    · refine ⟨fun n => ?_, ?_, ?_⟩
      · rcases n with _ | _ | _ | _ | _ | _ | _ | _ | _ | _ | _ | _ | n <;>
          simp [hr, outstanding]
      · simp [hr, Effect.isFindManyCall, List.takeWhile]
      · simp [createThrows, h1]

/-- Witness of C6: the first run over the empty store issues the read, the
second run fails at the create. -/
theorem requests_are_sequential_witness :
    (run storeEnv Db.empty).2.trace.any Effect.isFindManyCall = true ∧
    (run storeEnv Db.empty).2.trace.takeWhile (fun ev => !ev.isFindManyCall) =
      [.call (.userCreate createArgs), .settled (.userCreate createArgs) true] ∧
    createThrows storeEnv (run storeEnv Db.empty).2.state (.uniqueConstraint "email") ∧
    (run storeEnv (run storeEnv Db.empty).2.state).2.trace.any Effect.isFindManyCall = false :=
  ⟨rfl, (requests_are_sequential storeEnv Db.empty).2.1 rfl, rfl,
    ((requests_are_sequential storeEnv (run storeEnv Db.empty).2.state).2.2 _ rfl).1⟩

/-- C7: the data operations of a run are one `user.create` followed by at most
one `user.findMany`; no update and no delete is issued; over the store, the
rows present before the run are all kept, unchanged and in place. -/
theorem only_create_and_read_are_issued (env : Env σ α ε) (s : σ) :
    (dataRequests (run env s).2.trace = [.userCreate createArgs] ∨
      dataRequests (run env s).2.trace =
        [.userCreate createArgs, .userFindMany findManyArgs]) ∧
    (requests (run env s).2.trace).any Request.isUpdateOrDelete = false ∧
    (∀ db : Db, ∃ us ps fs, (run storeEnv db).2.state =
      { users := db.users ++ us, posts := db.posts ++ ps, profiles := db.profiles ++ fs }) := by
  refine ⟨?_, ?_, ?_⟩
  · rcases mainResult_cases env s with ⟨e1, s1, h1, hm⟩ | ⟨s1, e1, s2, h1, h2, hm⟩ |
        ⟨s1, v, s2, e1, s3, h1, h2, h3, hm⟩ | ⟨s1, v, s2, s3, h1, h2, h3, hm⟩
    · rcases run_of_main_rejected env s _ _ hm with ⟨t, hd1, hr⟩ | ⟨d, t, hd1, hr⟩ <;>
        simp [hr, requests, dataRequests]
    · rcases run_of_main_rejected env s _ _ hm with ⟨t, hd1, hr⟩ | ⟨d, t, hd1, hr⟩ <;>
        simp [hr, requests, dataRequests]
    · rcases run_of_main_rejected env s _ _ hm with ⟨t, hd1, hr⟩ | ⟨d, t, hd1, hr⟩ <;>
        simp [hr, requests, dataRequests]
    · rcases run_of_main_fulfilled env s _ hm with ⟨t, hd1, hr⟩ | ⟨e2, t, t2, hd1, hd2, hr⟩ |
          ⟨e2, t, d, t2, hd1, hd2, hr⟩ <;>
        simp [hr, requests, dataRequests]
  · rcases mainResult_cases env s with ⟨e1, s1, h1, hm⟩ | ⟨s1, e1, s2, h1, h2, hm⟩ |
        ⟨s1, v, s2, e1, s3, h1, h2, h3, hm⟩ | ⟨s1, v, s2, s3, h1, h2, h3, hm⟩
    · rcases run_of_main_rejected env s _ _ hm with ⟨t, hd1, hr⟩ | ⟨d, t, hd1, hr⟩ <;>
        simp [hr, requests, Request.isUpdateOrDelete]
    · rcases run_of_main_rejected env s _ _ hm with ⟨t, hd1, hr⟩ | ⟨d, t, hd1, hr⟩ <;>
        simp [hr, requests, Request.isUpdateOrDelete]
    · rcases run_of_main_rejected env s _ _ hm with ⟨t, hd1, hr⟩ | ⟨d, t, hd1, hr⟩ <;>
        simp [hr, requests, Request.isUpdateOrDelete]
    · rcases run_of_main_fulfilled env s _ hm with ⟨t, hd1, hr⟩ | ⟨e2, t, t2, hd1, hd2, hr⟩ |
          ⟨e2, t, d, t2, hd1, hd2, hr⟩ <;>
        simp [hr, requests, Request.isUpdateOrDelete]
  · intro db
    rw [run_storeEnv_state]
    unfold Db.userCreate
    split
    · exact ⟨[], [], [], by simp⟩
    · exact ⟨_, _, _, rfl⟩

/-- C8: whatever the environment and its state, a run issues exactly one
`user.create`, and its argument is the literal of `main`: the name, the email,
a nested create of one post that gives only a title (no published key), and a
nested create of one profile that gives a bio. Over the store, where the create
succeeds it adds one post with the default published flag and one profile of the
same user. -/
theorem create_request_is_fixed (env : Env σ α ε) (s : σ) :
    (requests (run env s).2.trace).filter Request.isUserCreate = [.userCreate createArgs] ∧
    createArgs.data.name = "danishKodeMonkey" ∧
    createArgs.data.email = "danish@KodeMonkey.banana" ∧
    createArgs.data.posts = [{ title := "Hello world", published := none }] ∧
    createArgs.data.profile = some { bio := "I like bananas" } ∧
    (∀ db : Db, (Db.userCreate createArgs db).1 = .ok () →
      ∃ p f, (Db.userCreate createArgs db).2.posts = db.posts ++ [p] ∧
        p.title = "Hello world" ∧ p.published = publishedDefault ∧
        (Db.userCreate createArgs db).2.profiles = db.profiles ++ [f] ∧
        f.bio = "I like bananas" ∧ f.userId = p.authorId) := by
  refine ⟨?_, rfl, rfl, rfl, rfl, ?_⟩
  · rcases mainResult_cases env s with ⟨e1, s1, h1, hm⟩ | ⟨s1, e1, s2, h1, h2, hm⟩ |
        ⟨s1, v, s2, e1, s3, h1, h2, h3, hm⟩ | ⟨s1, v, s2, s3, h1, h2, h3, hm⟩
    · rcases run_of_main_rejected env s _ _ hm with ⟨t, hd1, hr⟩ | ⟨d, t, hd1, hr⟩ <;>
        simp [hr, requests, Request.isUserCreate]
    · rcases run_of_main_rejected env s _ _ hm with ⟨t, hd1, hr⟩ | ⟨d, t, hd1, hr⟩ <;>
        simp [hr, requests, Request.isUserCreate]
    · rcases run_of_main_rejected env s _ _ hm with ⟨t, hd1, hr⟩ | ⟨d, t, hd1, hr⟩ <;>
        simp [hr, requests, Request.isUserCreate]
    · rcases run_of_main_fulfilled env s _ hm with ⟨t, hd1, hr⟩ | ⟨e2, t, t2, hd1, hd2, hr⟩ |
          ⟨e2, t, d, t2, hd1, hd2, hr⟩ <;>
        simp [hr, requests, Request.isUserCreate]
  · intro db hok
    unfold Db.userCreate at hok ⊢
    split at hok
    · cases hok
    · rename_i hdup
      rw [if_neg hdup]
      exact ⟨_, _, rfl, rfl, rfl, rfl, rfl, rfl⟩

/-- Witness of C8: the create of the script succeeds on the empty store. -/
theorem create_request_is_fixed_witness :
    (Db.userCreate createArgs Db.empty).1 = .ok () ∧
    ∃ p f, (Db.userCreate createArgs Db.empty).2.posts = Db.empty.posts ++ [p] ∧
      p.title = "Hello world" ∧ p.published = publishedDefault ∧
      (Db.userCreate createArgs Db.empty).2.profiles = Db.empty.profiles ++ [f] ∧
      f.bio = "I like bananas" ∧ f.userId = p.authorId :=
  ⟨rfl, (create_request_is_fixed storeEnv Db.empty).2.2.2.2.2 Db.empty rfl⟩

/-- C9 (amended): when `main` succeeds, the one `user.findMany` of the run
carries no filter and includes posts and profile (over the store it returns
every user row with all its posts and its profile), and `console.dir` is called
once, with exactly the value `findMany` resolved to and the options
`{ depth: null }` alone. What is printed is that value under no depth limit and
under the default limits of 100 items an array and 10000 characters a string;
for a result within those limits it is the whole value, nothing dropped or
truncated. -/
theorem read_is_unfiltered_and_rendered_within_limits
    (env : Env σ (List UserWithRelations) ε) (s : σ)
    (hmain : (mainResult env s).1 = .fulfilled ()) :
    (∃ v, (env.userFindMany findManyArgs (env.userCreate createArgs s).2).1 = .ok v ∧
      dirCalls (run env s).2.trace = [(v, dirOptions)] ∧
      stdoutWrites (run env s).2.trace = [inspectUsers (effectiveOptions dirOptions) v] ∧
      (fitsDefaults v → stdoutWrites (run env s).2.trace = [inspectUsers noLimits v])) ∧
    (requests (run env s).2.trace).filter Request.isUserFindMany =
      [.userFindMany findManyArgs] ∧
    findManyArgs.filter = none ∧
    findManyArgs.include_ = { posts := true, profile := true } ∧
    dirOptions = { depth := some .unlimited, maxArrayLength := none, maxStringLength := none } ∧
    (effectiveOptions dirOptions).depth = .unlimited ∧
    (effectiveOptions dirOptions).maxArrayLength = .upTo 100 ∧
    (effectiveOptions dirOptions).maxStringLength = .upTo 10000 ∧
    (∀ db : Db, (Db.userFindMany findManyArgs db).1 =
      .ok (db.users.map fun u =>
        { id := u.id, name := u.name, email := u.email
          posts := db.posts.filter (fun p => p.authorId == u.id)
          profile := db.profiles.find? (fun p => p.userId == u.id) })) := by
  refine ⟨?_, ?_, rfl, rfl, rfl, rfl, rfl, rfl, fun db => rfl⟩
  · rcases mainResult_cases env s with ⟨e1, s1, h1, hm⟩ | ⟨s1, e1, s2, h1, h2, hm⟩ |
        ⟨s1, v, s2, e1, s3, h1, h2, h3, hm⟩ | ⟨s1, v, s2, s3, h1, h2, h3, hm⟩
    · simp [hm] at hmain
    · simp [hm] at hmain
    · simp [hm] at hmain
    · have hdir : dirCalls (run env s).2.trace = [(v, dirOptions)] := by
        rcases run_of_main_fulfilled env s _ hm with ⟨t, hd1, hr⟩ |
            ⟨e2, t, t2, hd1, hd2, hr⟩ | ⟨e2, t, d, t2, hd1, hd2, hr⟩ <;>
          simp [hr, dirCalls]
      have hout : stdoutWrites (run env s).2.trace =
          [inspectUsers (effectiveOptions dirOptions) v] := by
        simp [stdoutWrites, hdir]
      refine ⟨v, by simp [h1, h2], hdir, hout, fun hfit => ?_⟩
      rw [hout, inspectUsers_of_fits _ rfl rfl rfl v hfit]
  · rcases mainResult_cases env s with ⟨e1, s1, h1, hm⟩ | ⟨s1, e1, s2, h1, h2, hm⟩ |
        ⟨s1, v, s2, e1, s3, h1, h2, h3, hm⟩ | ⟨s1, v, s2, s3, h1, h2, h3, hm⟩
    · simp [hm] at hmain
    · simp [hm] at hmain
    · simp [hm] at hmain
    · rcases run_of_main_fulfilled env s _ hm with ⟨t, hd1, hr⟩ | ⟨e2, t, t2, hd1, hd2, hr⟩ |
          ⟨e2, t, d, t2, hd1, hd2, hr⟩ <;>
        simp [hr, requests, Request.isUserFindMany]

/-- C9 fails as stated: over a store that holds 100 users the run succeeds,
`findMany` returns 101 users, and what `console.dir` prints holds 100 of them
and leaves one out. -/
theorem hundred_and_first_user_is_dropped_counterexample :
    (mainResult storeEnv (Db.ofUsers 100)).1 = .fulfilled () ∧
    ∃ v items, (storeEnv.userFindMany findManyArgs
        (storeEnv.userCreate createArgs (Db.ofUsers 100)).2).1 = .ok v ∧
      v.length = 101 ∧
      dirCalls (run storeEnv (Db.ofUsers 100)).2.trace = [(v, dirOptions)] ∧
      stdoutWrites (run storeEnv (Db.ofUsers 100)).2.trace = [.array items 1] ∧
      items.length = 100 :=
  ⟨rfl, _, _, rfl, rfl, rfl, rfl, rfl⟩

/-- Witness of C9 (amended): the run over the empty store; its result lies
within the default limits and is printed whole. -/
theorem read_is_unfiltered_and_rendered_within_limits_witness :
    (mainResult storeEnv Db.empty).1 = .fulfilled () ∧
    ∃ v, dirCalls (run storeEnv Db.empty).2.trace = [(v, dirOptions)] ∧
      fitsDefaults v ∧
      stdoutWrites (run storeEnv Db.empty).2.trace = [inspectUsers noLimits v] := by
  obtain ⟨v, hfind, hdir, _, hwhole⟩ :=
    (read_is_unfiltered_and_rendered_within_limits storeEnv Db.empty rfl).1
  have hv : v = [{ id := 1, name := "danishKodeMonkey", email := "danish@KodeMonkey.banana"
                   posts := [{ id := 1, title := "Hello world", published := false,
                               authorId := 1 }]
                   profile := some { id := 1, bio := "I like bananas", userId := 1 } }] :=
    (Except.ok.inj hfind).symm
  have hfit : fitsDefaults v := by
    subst hv
    refine ⟨by decide, ?_⟩
    intro u hu
    rw [List.mem_singleton] at hu
    subst hu
    refine ⟨by decide, by decide, by decide, ?_, ?_⟩
    · intro p hp
      rw [List.mem_singleton] at hp
      subst hp
      decide
    · intro f hf
      cases hf
      decide
  exact ⟨rfl, v, hdir, hfit, hwhole hfit⟩

/-- C10 (amended): when `main` succeeds and the `$disconnect` of the success
handler rejects with `e`, the failure handler runs: `e` is written to standard
error and `$disconnect` is invoked a second time. `process.exit(1)` is called
if that second `$disconnect` fulfils; if it rejects too, `process.exit` is not
called and the run ends rejected. -/
theorem success_disconnect_rejection_reaches_handler (env : Env σ α ε) (s : σ) (e : ε)
    (hmain : (mainResult env s).1 = .fulfilled ())
    (hd : (firstDisconnect env s).1 = .error e) :
    (run env s).2.trace =
        (mainResult env s).2.trace ++
          [.call .disconnect, .settled .disconnect false, .consoleError e, .call .disconnect,
            .settled .disconnect (secondDisconnect env s).1.isOk] ++
          (if (secondDisconnect env s).1.isOk then [.processExit 1] else []) ∧
      stderrWrites (run env s).2.trace = [e] ∧
      disconnectCalls (run env s).2.trace = 2 ∧
      ((secondDisconnect env s).1 = .ok () →
        (run env s).1 = .exited 1 ∧ exitCalls (run env s).2.trace = [1]) ∧
      (∀ d, (secondDisconnect env s).1 = .error d →
        (run env s).1 = .rejected d ∧ exitCalls (run env s).2.trace = []) := by
  rcases mainResult_cases env s with ⟨e1, s1, h1, hm⟩ | ⟨s1, e1, s2, h1, h2, hm⟩ |
      ⟨s1, v, s2, e1, s3, h1, h2, h3, hm⟩ | ⟨s1, v, s2, s3, h1, h2, h3, hm⟩
  · simp [hm] at hmain
  · simp [hm] at hmain
  · simp [hm] at hmain
  · rcases run_of_main_fulfilled env s _ hm with ⟨t, hd1, hr⟩ | ⟨e2, t, t2, hd1, hd2, hr⟩ |
        ⟨e2, t, d, t2, hd1, hd2, hr⟩
    · rw [hd1] at hd; cases hd
    · have he : e2 = e := by simpa [hd1] using hd
      subst he
      simp [hm, hr, hd2, exitCalls, stderrWrites, disconnectCalls,
        Effect.isDisconnectCall, Except.isOk, Except.toBool]
    · have he : e2 = e := by simpa [hd1] using hd
      subst he
      simp [hm, hr, hd2, exitCalls, stderrWrites, disconnectCalls,
        Effect.isDisconnectCall, Except.isOk, Except.toBool]

/-- Witness of C10 (amended): create, read and rendering succeed, the first
`$disconnect` rejects with "E" and the second fulfils; the run ends with
`process.exit(1)` after two `$disconnect` calls. -/
theorem success_disconnect_rejection_reaches_handler_witness :
    (mainResult (scriptedEnv (.ok ()) (.ok 7) (.ok ()) [.error "E"]) 0).1 = .fulfilled () ∧
    (firstDisconnect (scriptedEnv (.ok ()) (.ok 7) (.ok ()) [.error "E"]) 0).1 = .error "E" ∧
    stderrWrites (run (scriptedEnv (.ok ()) (.ok 7) (.ok ()) [.error "E"]) 0).2.trace = ["E"] ∧
    disconnectCalls (run (scriptedEnv (.ok ()) (.ok 7) (.ok ()) [.error "E"]) 0).2.trace = 2 ∧
    (run (scriptedEnv (.ok ()) (.ok 7) (.ok ()) [.error "E"]) 0).1 = .exited 1 :=
  ⟨rfl, rfl,
    (success_disconnect_rejection_reaches_handler
      (scriptedEnv (.ok ()) (.ok 7) (.ok ()) [.error "E"]) 0 "E" rfl rfl).2.1,
    (success_disconnect_rejection_reaches_handler
      (scriptedEnv (.ok ()) (.ok 7) (.ok ()) [.error "E"]) 0 "E" rfl rfl).2.2.1,
    ((success_disconnect_rejection_reaches_handler
      (scriptedEnv (.ok ()) (.ok 7) (.ok ()) [.error "E"]) 0 "E" rfl rfl).2.2.2.1 rfl).1⟩

/-- C10 fails as stated: `main` succeeds, the first `$disconnect` rejects with
"E" and the second rejects with "F"; `$disconnect` is invoked twice and
`process.exit` is never called. -/
theorem no_exit_when_both_disconnects_reject_counterexample :
    (mainResult (scriptedEnv (.ok ()) (.ok 7) (.ok ()) [.error "E", .error "F"]) 0).1
      = .fulfilled () ∧
    (firstDisconnect (scriptedEnv (.ok ()) (.ok 7) (.ok ()) [.error "E", .error "F"]) 0).1
      = .error "E" ∧
    disconnectCalls
      (run (scriptedEnv (.ok ()) (.ok 7) (.ok ()) [.error "E", .error "F"]) 0).2.trace = 2 ∧
    exitCalls (run (scriptedEnv (.ok ()) (.ok 7) (.ok ()) [.error "E", .error "F"]) 0).2.trace
      = [] ∧
    (run (scriptedEnv (.ok ()) (.ok 7) (.ok ()) [.error "E", .error "F"]) 0).1 = .rejected "F" :=
  ⟨rfl, rfl, rfl, rfl, rfl⟩

end Claims

end PrismaQuickstart
